import Mathlib

/-!
Verification of the flag-evaluation lifecycle glue of a Flask + LaunchDarkly
demo application (`app.py`, `app_idiomatic.py`, `config.py`,
`launchdarkly_helpers.py`, `gunicorn.conf.py`).

The repository is glue around an external SDK.  The SDK itself (the `ldclient`
package) is not part of the repository; its observable behaviour is modelled
from the specification's Client Handle contract (section 4): `variation`
never raises, degrades to the caller-supplied default on any internal
failure, and after `close` or before readiness returns the default.  Every
definition that models the external SDK or the web framework carries a doc
comment saying so; all other definitions are direct translations of the
repository's Python source.
-/

namespace FlaskLD

/-- An evaluation context: identity key plus a validity bit.
`Context.builder(key).build()` in the code always produces a valid
context; the `valid` field lets the SDK model express the spec's
"malformed context" failure for contexts produced any other way. -/
structure Context where
  key : String
  valid : Bool
deriving DecidableEq, Repr

/-- `Context.builder(user_key).build()` — always yields a valid context. -/
def Context.build (key : String) : Context := ⟨key, true⟩

/-- Internal failure modes of the external evaluation engine
(spec section 7: network unavailable, flag unknown, malformed context,
evaluation after close / before readiness). -/
inductive LDError where
  | clientClosed
  | clientNotReady
  | malformedContext
  | networkUnavailable
  | flagUnknown
deriving DecidableEq, Repr

/-- Modelled from the spec: the state of the external SDK client handle.
`initialized` is what `is_initialized()` reports, `closed` records that
`close()` has been called, `networkUp` and `flagStore` abstract the
engine's connectivity and local flag store. -/
structure LDClient where
  initialized : Bool
  closed : Bool
  networkUp : Bool
  flagStore : String → Option Bool

/-- `client.is_initialized()` — non-blocking point-in-time status read. -/
def LDClient.is_initialized (c : LDClient) : Bool := c.initialized

/-- Modelled from the spec: the core of the external engine's evaluation,
with every internal failure the spec names made explicit.  Evaluation
after `CLOSED`, before readiness, with a malformed context, with the
network down, or of an unknown flag is an internal failure. -/
def LDClient.variationCore (c : LDClient) (flag_key : String) (context : Context) :
    Except LDError Bool :=
  if c.closed then .error .clientClosed
  else if !c.initialized then .error .clientNotReady
  else if !context.valid then .error .malformedContext
  else if !c.networkUp then .error .networkUnavailable
  else
    match c.flagStore flag_key with
    | some v => .ok v
    | none => .error .flagUnknown

/-- Modelled from the spec: `client.variation(flag_key, context, default)`.
Never fails: any internal failure of the engine degrades to returning
the caller-supplied default (spec section 4.2). -/
def LDClient.variation (c : LDClient) (flag_key : String) (context : Context)
    (default : Bool) : Bool :=
  match c.variationCore flag_key context with
  | .ok v => v
  | .error _ => default

/-- Modelled from the spec: `client.close()` marks the handle closed;
`CLOSED` is terminal. -/
def LDClient.closeOp (c : LDClient) : LDClient :=
  ⟨c.initialized, true, c.networkUp, c.flagStore⟩

/-- Modelled from the spec (worst case): the raw SDK `close()` call as a
fallible operation — closing an already-closed handle is allowed to
raise, so that the repository's swallow-all wrappers carry the whole
burden of idempotence. -/
def LDClient.closeE (c : LDClient) : Except LDError LDClient :=
  if c.closed then .error .clientClosed else .ok c.closeOp

/-- `app.extensions` — Flask's per-application extension dictionary,
restricted to the one key this code uses. -/
def ExtDict : Type := String → Option LDClient

/-- `get_ld_client()` (launchdarkly_helpers.py):
`current_app.extensions.get('launchdarkly')`. -/
def get_ld_client (ext : ExtDict) : Option LDClient := ext "launchdarkly"

/-- `evaluate_flag(flag_key, context, default)` (launchdarkly_helpers.py):
delegate to `client.variation` when a client is registered, otherwise
return the default. -/
def evaluate_flag (ext : ExtDict) (flag_key : String) (context : Context)
    (default : Bool) : Bool :=
  match get_ld_client ext with
  | some client => client.variation flag_key context default
  | none => default

/-- An inbound HTTP request, reduced to what the handlers read:
`request.args`. -/
structure Request where
  args : String → Option String

/-- `request.args.get("user", default_key)`. -/
def requestUserKey (req : Request) (default_key : String) : String :=
  (req.args "user").getD default_key

/-- `user_context_from_request()` (app.py): identity key from the `user`
query parameter, defaulting to `"anon"`. -/
def user_context_from_request (req : Request) : Context :=
  Context.build (requestUserKey req "anon")

/-- `build_context_from_request(request, default_key)`
(launchdarkly_helpers.py). -/
def build_context_from_request (req : Request) (default_key : String) : Context :=
  Context.build (requestUserKey req default_key)

/-- The JSON body returned by `GET /api/flag/<flag_key>`: exactly the
fields `flag`, `user`, `value`. -/
structure FlagResponse where
  flag : String
  user : String
  value : Bool
deriving DecidableEq, Repr

/-- `read_flag(flag_key)` (app.py): evaluate the flag for the request's
user context and echo flag key, user key and value. -/
def read_flag (ld : LDClient) (req : Request) (flag_key : String) : FlagResponse :=
  ⟨flag_key, requestUserKey req "anon",
    ld.variation flag_key (user_context_from_request req) false⟩

/-- `read_flag(flag_key)` (app_idiomatic.py): same shape, but the context
comes from `build_context_from_request(request, default_key="anon")` and
evaluation goes through `evaluate_flag`. -/
def read_flag_idiomatic (ext : ExtDict) (req : Request) (flag_key : String) :
    FlagResponse :=
  ⟨flag_key, requestUserKey req "anon",
    evaluate_flag ext flag_key (build_context_from_request req "anon") false⟩

/-- `health()` (app.py and app_idiomatic.py): literal `"ok"` with HTTP 200,
reading no application state at all. -/
def health (_ext : ExtDict) : String × Nat := ("ok", 200)

/-- The JSON body of `GET /status`. -/
structure StatusResponse where
  launchdarkly_initialized : Bool
  status : String
deriving DecidableEq, Repr

/-- `status()` (app_idiomatic.py): report `is_initialized()` of the
registered client (false when none is registered) and derive the
`status` string from it; always HTTP 200. -/
def status (ext : ExtDict) : StatusResponse × Nat :=
  let initialized :=
    match get_ld_client ext with
    | some client => client.is_initialized
    | none => false
  (⟨initialized, if initialized then "ready" else "initializing"⟩, 200)

/-- The process environment: `os.getenv`. -/
def Env : Type := String → Option String

/-- `os.getenv(key, default)`. -/
def getenvD (env : Env) (key : String) (default : String) : String :=
  (env key).getD default

/-- Python truthiness of an optional string: `None` and `""` are falsy.
Used by `if not sdk_key:` and `if client:` checks. -/
def pyTruthy : Option String → Bool
  | none => false
  | some s => !(s == "")

/-- Errors that can abort startup.  `configurationError` is the
`RuntimeError` raised for a missing SDK key; `keyError` is the `KeyError`
a lookup of an unknown configuration name in the `config` dict would
raise. -/
inductive StartupError where
  | configurationError (msg : String)
  | keyError (msg : String)
deriving DecidableEq, Repr

/-- The `RuntimeError` message raised by app.py when the SDK key is
missing. -/
def appKeyErrMsg : String :=
  "Set LAUNCHDARKLY_SDK_KEY in your environment or .env file."

/-- The `RuntimeError` message raised by `Config.validate` (config.py). -/
def cfgKeyErrMsg : String :=
  "LAUNCHDARKLY_SDK_KEY must be set in environment or .env file"

/-- The `RuntimeError` message raised by `init_launchdarkly`
(launchdarkly_helpers.py). -/
def helperKeyErrMsg : String :=
  "LAUNCHDARKLY_SDK_KEY must be set in app.config. Set it in config.py or via environment variable."

/-- Modelled from the spec: `ldclient.set_config(...); ldclient.get()` —
non-blocking construction of a fresh handle that may still report
`is_initialized() == false` while background connectivity is
established. -/
def ldclient_fresh : LDClient :=
  ⟨false, false, true, fun _ => none⟩

/-- `SDK_KEY = os.getenv("LAUNCHDARKLY_SDK_KEY", "")` (app.py). -/
def SDK_KEY (env : Env) : String := getenvD env "LAUNCHDARKLY_SDK_KEY" ""

/-- Module-level startup of app.py: read the SDK key, raise `RuntimeError`
when it is falsy, otherwise construct the client handle. -/
def app_module_init (env : Env) : Except StartupError LDClient :=
  if SDK_KEY env = "" then .error (.configurationError appKeyErrMsg)
  else .ok ldclient_fresh

/-- `init_launchdarkly(app)` (launchdarkly_helpers.py): read
`app.config.get('LAUNCHDARKLY_SDK_KEY')`, raise `RuntimeError` when it is
falsy, otherwise construct the client and store it under the
`'launchdarkly'` key of `app.extensions`. -/
def init_launchdarkly (cfg_sdk_key : Option String) : Except StartupError ExtDict :=
  if pyTruthy cfg_sdk_key then
    .ok (fun k => if k = "launchdarkly" then some ldclient_fresh else none)
  else .error (.configurationError helperKeyErrMsg)

/-- The configuration attributes loaded by `app.config.from_object`
(config.py): one record per config class after attribute override
resolution. -/
structure ConfigClass where
  LAUNCHDARKLY_SDK_KEY : String
  LD_FLAG_KEY_WEB_BANNER : String
  SECRET_KEY : String
deriving DecidableEq, Repr

/-- The base `Config` class (config.py): all attributes read from the
environment. -/
def ConfigBase (env : Env) : ConfigClass :=
  ⟨getenvD env "LAUNCHDARKLY_SDK_KEY" "",
   getenvD env "LD_FLAG_KEY_WEB_BANNER" "web-banner",
   getenvD env "SECRET_KEY" "dev-secret-key-change-in-production"⟩

/-- `DevelopmentConfig` (config.py): inherits every attribute here
modelled. -/
def DevelopmentConfig (env : Env) : ConfigClass := ConfigBase env

/-- `ProductionConfig` (config.py): inherits every attribute here
modelled. -/
def ProductionConfig (env : Env) : ConfigClass := ConfigBase env

/-- `TestingConfig` (config.py): overrides `LAUNCHDARKLY_SDK_KEY` with the
literal `"test-sdk-key"`. -/
def TestingConfig (env : Env) : ConfigClass :=
  { ConfigBase env with LAUNCHDARKLY_SDK_KEY := "test-sdk-key" }

/-- The `config` dictionary (config.py). -/
def configDict (name : String) : Option (Env → ConfigClass) :=
  if name = "development" then some DevelopmentConfig
  else if name = "testing" then some TestingConfig
  else if name = "production" then some ProductionConfig
  else if name = "default" then some ProductionConfig
  else none

/-- `Config.validate()` (config.py): a `@staticmethod` that reads
`Config.LAUNCHDARKLY_SDK_KEY` — the BASE class attribute, i.e. the
environment-derived value — regardless of which subclass it is invoked
on. -/
def Config.validate (env : Env) : Except StartupError Unit :=
  if (ConfigBase env).LAUNCHDARKLY_SDK_KEY = "" then
    .error (.configurationError cfgKeyErrMsg)
  else .ok ()

/-- The application state produced by `create_app`. -/
structure App where
  config : ConfigClass
  extensions : ExtDict

/-- `create_app(config_name)` (app_idiomatic.py): select the config class,
load it into `app.config`, call `validate()` on the selected class (which
is the inherited base staticmethod), then `init_launchdarkly(app)`. -/
def create_app (env : Env) (config_name : String) : Except StartupError App :=
  match configDict config_name with
  | none => .error (.keyError config_name)
  | some mkCfg =>
    let cfg := mkCfg env
    match Config.validate env with
    | .error e => .error e
    | .ok _ =>
      match init_launchdarkly (some cfg.LAUNCHDARKLY_SDK_KEY) with
      | .error e => .error e
      | .ok ext => .ok ⟨cfg, ext⟩

/-- The module-level singleton state behind `ldclient.get()`. -/
structure LDGlobal where
  client : Option LDClient

/-- The body of `_shutdown_ld_client` (launchdarkly_helpers.py) before the
`try/except`: `ldclient.get()` then `client.close()`, which may fail. -/
def shutdown_body (g : LDGlobal) : Except LDError LDGlobal :=
  match g.client with
  | none => .ok g
  | some c =>
    match c.closeE with
    | .ok c2 => .ok ⟨some c2⟩
    | .error e => .error e

/-- `_shutdown_ld_client()` (launchdarkly_helpers.py): the body wrapped in
`try: ... except Exception: pass` — any failure is swallowed and the
state it would have produced is discarded. -/
def shutdown_ld_client (g : LDGlobal) : LDGlobal :=
  match shutdown_body g with
  | .ok g2 => g2
  | .error _ => g

/-- `_close_ld()` (app.py): `try: ld.close() except Exception: pass` on the
module-level handle. -/
def close_ld (g : LDGlobal) : LDGlobal :=
  match g.client with
  | none => g
  | some c =>
    match c.closeE with
    | .ok c2 => ⟨some c2⟩
    | .error _ => g

/-- Severity of the one log line emitted by the gunicorn `post_fork`
hook. -/
inductive LogLevel where
  | info
  | error
deriving DecidableEq, Repr

/-- `post_fork(server, worker)` (gunicorn.conf.py): run the try-block
(`ldclient.get(); client.postfork()`, here an arbitrary fallible
`impl`), logging success at info level; any exception is caught by the
`except` clause, logged at error level, and the worker's state is left
as it was.  The `Except` result type records whether the hook itself
raises: it never does. -/
def post_fork (g : LDGlobal) (impl : LDGlobal → Except LDError LDGlobal) :
    Except LDError (LDGlobal × LogLevel) :=
  match impl g with
  | .ok g2 => .ok (g2, .info)
  | .error _ => .ok (g, .error)

/-- Runtime events of one worker process of the idiomatic app. -/
inductive Ev where
  | serveRequest
  | processExit
deriving DecidableEq, Repr

/-- One worker process's observable lifecycle state: the singleton client,
how many times `close()` has been invoked on it, and whether the process
has exited. -/
structure RunState where
  client : LDClient
  closeCalls : Nat
  exited : Bool

/-- State after `create_app` has run: one client handle created, never yet
closed. -/
def bootIdiomatic : RunState := ⟨ldclient_fresh, 0, false⟩

/-- Framework semantics (Flask): functions registered with
`@app.teardown_appcontext` run every time an application context is
popped, which happens at the end of every handled request.  So each
`serveRequest` runs `_close_launchdarkly`, which finds the registered
client and calls `close()` on it; `processExit` runs the `atexit` hook
`_shutdown_ld_client`, which also calls `close()`. -/
def stepIdiomatic (s : RunState) (e : Ev) : RunState :=
  if s.exited then s
  else
    match e with
    | .serveRequest => ⟨s.client.closeOp, s.closeCalls + 1, false⟩
    | .processExit => ⟨s.client.closeOp, s.closeCalls + 1, true⟩

/-- A run of the idiomatic app: boot, then a sequence of events. -/
def runIdiomatic (evs : List Ev) : RunState :=
  evs.foldl stepIdiomatic bootIdiomatic

/-! Concrete fixtures used by witnesses. -/

/-- A tiny concrete flag store. -/
def sampleStore : String → Option Bool :=
  fun k => if k = "web-banner" then some true else none

/-- A ready (initialized, open, connected) client. -/
def cReady : LDClient := ⟨true, false, true, sampleStore⟩

/-- A client still initializing. -/
def cNotReady : LDClient := ⟨false, false, true, sampleStore⟩

/-- A closed client. -/
def cClosed : LDClient := ⟨true, true, true, sampleStore⟩

/-- An extensions dict with no LaunchDarkly client registered. -/
def extNone : ExtDict := fun _ => none

/-- An extensions dict holding the given client. -/
def extOf (c : LDClient) : ExtDict := fun _ => some c

/-- A request with no query parameters. -/
def reqNoUser : Request := ⟨fun _ => none⟩

/-- A global singleton state holding a ready client. -/
def gSample : LDGlobal := ⟨some cReady⟩

/-! Theorems, one per claim. -/

/-- C1: for every flag key, evaluation context and default value, the
flag-evaluation call (`evaluate_flag` / `ld.variation` as invoked by the
route handlers) never raises to the request handler: both are total
functions into `Bool`, and every internal engine failure resolves to the
caller-supplied default — the only alternative outcome is a successful
engine evaluation. -/
theorem evaluation_never_raises :
    (∀ (c : LDClient) (k : String) (ctx : Context) (d : Bool),
      c.variation k ctx d = d ∨
        ∃ v, c.variationCore k ctx = Except.ok v ∧ c.variation k ctx d = v) ∧
    (∀ (ext : ExtDict) (k : String) (ctx : Context) (d : Bool),
      evaluate_flag ext k ctx d = d ∨
        ∃ c v, get_ld_client ext = some c ∧ c.variationCore k ctx = Except.ok v ∧
          evaluate_flag ext k ctx d = v) ∧
    (∀ (ld : LDClient) (req : Request) (k : String),
      (read_flag ld req k).value = false ∨
        ∃ v, ld.variationCore k (user_context_from_request req) = Except.ok v ∧
          (read_flag ld req k).value = v) := by
  have hvar : ∀ (c : LDClient) (k : String) (ctx : Context) (d : Bool),
      c.variation k ctx d = d ∨
        ∃ v, c.variationCore k ctx = Except.ok v ∧ c.variation k ctx d = v := by
    intro c k ctx d
    cases h : c.variationCore k ctx with
    | ok v => exact Or.inr ⟨v, rfl, by simp [LDClient.variation, h]⟩
    | error e => exact Or.inl (by simp [LDClient.variation, h])
  refine ⟨hvar, ?_, ?_⟩
  · intro ext k ctx d
    cases hext : get_ld_client ext with
    | none => exact Or.inl (by simp [evaluate_flag, hext])
    | some c =>
      cases hvar c k ctx d with
      | inl h => exact Or.inl (by simp [evaluate_flag, hext, h])
      | inr h =>
        obtain ⟨v, hcore, hval⟩ := h
        exact Or.inr ⟨c, v, rfl, hcore, by simp [evaluate_flag, hext, hval]⟩
  · intro ld req k
    cases hvar ld k (user_context_from_request req) false with
    | inl h => exact Or.inl (by simp [read_flag, h])
    | inr h =>
      obtain ⟨v, hcore, hval⟩ := h
      exact Or.inr ⟨v, hcore, by simp [read_flag, hval]⟩

/-- C2: for all flag keys, contexts and defaults, when the client handle is
absent, or present but not initialized, or closed, flag evaluation
returns exactly the caller-supplied default — both through
`evaluate_flag` and through `client.variation` directly. -/
theorem evaluate_flag_default_when_not_ready (ext : ExtDict) (k : String)
    (ctx : Context) (d : Bool) :
    (get_ld_client ext = none → evaluate_flag ext k ctx d = d) ∧
    (∀ c, get_ld_client ext = some c → c.is_initialized = false →
      evaluate_flag ext k ctx d = d) ∧
    (∀ c, get_ld_client ext = some c → c.closed = true →
      evaluate_flag ext k ctx d = d) ∧
    (∀ c : LDClient, c.is_initialized = false → c.variation k ctx d = d) ∧
    (∀ c : LDClient, c.closed = true → c.variation k ctx d = d) := by
  have hnotReady : ∀ c : LDClient, c.is_initialized = false →
      c.variation k ctx d = d := by
    intro c hinit
    have hinit' : c.initialized = false := hinit
    cases hcl : c.closed <;>
      simp [LDClient.variation, LDClient.variationCore, hinit', hcl]
  have hclosed : ∀ c : LDClient, c.closed = true → c.variation k ctx d = d := by
    intro c hcl
    simp [LDClient.variation, LDClient.variationCore, hcl]
  refine ⟨?_, ?_, ?_, hnotReady, hclosed⟩
  · intro h; simp [evaluate_flag, h]
  · intro c hc hinit; simp [evaluate_flag, hc, hnotReady c hinit]
  · intro c hc hcl; simp [evaluate_flag, hc, hclosed c hcl]

/-- Witness for C2 at concrete inputs: absent handle, not-ready client and
closed client all yield the default `true`. -/
theorem evaluate_flag_default_when_not_ready_witness :
    evaluate_flag extNone "web-banner" (Context.build "anon") true = true ∧
    evaluate_flag (extOf cNotReady) "web-banner" (Context.build "anon") true = true ∧
    evaluate_flag (extOf cClosed) "web-banner" (Context.build "anon") true = true :=
  ⟨(evaluate_flag_default_when_not_ready extNone "web-banner"
      (Context.build "anon") true).1 rfl,
   (evaluate_flag_default_when_not_ready (extOf cNotReady) "web-banner"
      (Context.build "anon") true).2.1 cNotReady rfl rfl,
   (evaluate_flag_default_when_not_ready (extOf cClosed) "web-banner"
      (Context.build "anon") true).2.2.1 cClosed rfl rfl⟩

/-- C3: on `GET /api/flag/<flag_key>` with no `user` query parameter, the
evaluation context key and the echoed `user` field both default to
`"anon"`, and the response consists of exactly the fields
`flag`, `user`, `value` — in both implementations. -/
theorem read_flag_anon_default (ld : LDClient) (ext : ExtDict) (req : Request)
    (k : String) (h : req.args "user" = none) :
    user_context_from_request req = Context.build "anon" ∧
    build_context_from_request req "anon" = Context.build "anon" ∧
    read_flag ld req k = ⟨k, "anon", ld.variation k (Context.build "anon") false⟩ ∧
    read_flag_idiomatic ext req k =
      ⟨k, "anon", evaluate_flag ext k (Context.build "anon") false⟩ := by
  have hk : requestUserKey req "anon" = "anon" := by simp [requestUserKey, h]
  refine ⟨?_, ?_, ?_, ?_⟩ <;>
    simp [user_context_from_request, build_context_from_request, read_flag,
      read_flag_idiomatic, hk]

/-- Witness for C3: a concrete request with no parameters against the ready
client; `test-flag` is absent from the store, so the value is the
default `false`. -/
theorem read_flag_anon_default_witness :
    read_flag cReady reqNoUser "test-flag" = ⟨"test-flag", "anon", false⟩ := by
  have h := read_flag_anon_default cReady (extOf cReady) reqNoUser "test-flag" rfl
  exact h.2.2.1.trans (by decide)

/-- C4: startup raises its `RuntimeError` (the `ConfigurationError` of the
spec) exactly when the SDK key is absent or empty — in app.py's module
initialization and in `init_launchdarkly` — and no other error kind can
abort app.py's startup. -/
theorem startup_fails_iff_key_missing (env : Env) :
    (app_module_init env = .error (.configurationError appKeyErrMsg) ↔
      (env "LAUNCHDARKLY_SDK_KEY" = none ∨ env "LAUNCHDARKLY_SDK_KEY" = some "")) ∧
    (∀ e, app_module_init env = .error e → e = .configurationError appKeyErrMsg) ∧
    (∀ key : Option String,
      init_launchdarkly key = .error (.configurationError helperKeyErrMsg) ↔
        (key = none ∨ key = some "")) := by
  have hkey : (SDK_KEY env = "") ↔
      (env "LAUNCHDARKLY_SDK_KEY" = none ∨ env "LAUNCHDARKLY_SDK_KEY" = some "") := by
    cases h : env "LAUNCHDARKLY_SDK_KEY" with
    | none => simp [SDK_KEY, getenvD, h]
    | some s => simp [SDK_KEY, getenvD, h]
  refine ⟨?_, ?_, ?_⟩
  · rw [← hkey]
    by_cases h : SDK_KEY env = "" <;> simp [app_module_init, h]
  · intro e he
    by_cases h : SDK_KEY env = "" <;> simp [app_module_init, h] at he
    exact he.symm
  · intro key
    cases key with
    | none => simp [init_launchdarkly, pyTruthy]
    | some s => by_cases h : s = "" <;> simp [init_launchdarkly, pyTruthy, h]

/-- Witness for C4: the empty environment aborts app.py's startup with the
configuration error, and an empty configured key aborts
`init_launchdarkly`. -/
theorem startup_fails_iff_key_missing_witness :
    app_module_init (fun _ => none) =
      .error (.configurationError appKeyErrMsg) ∧
    init_launchdarkly (some "") =
      .error (.configurationError helperKeyErrMsg) :=
  ⟨((startup_fails_iff_key_missing (fun _ => none)).1).2 (Or.inl rfl),
   ((startup_fails_iff_key_missing (fun _ => none)).2.2 (some "")).2 (Or.inr rfl)⟩

/-- C5 (code bug): in the idiomatic app, `init_launchdarkly` registers
`_close_launchdarkly` with `@app.teardown_appcontext`, which Flask runs
at the end of every request — so serving a single request already closes
the client (before any process shutdown), and boot + one request +
process exit invokes `close()` twice, contradicting "closed exactly
once, at process shutdown". -/
theorem teardown_closes_client_per_request :
    (runIdiomatic [Ev.serveRequest]).closeCalls = 1 ∧
    (runIdiomatic [Ev.serveRequest]).exited = false ∧
    (runIdiomatic [Ev.serveRequest]).client.closed = true ∧
    (runIdiomatic [Ev.serveRequest, Ev.processExit]).closeCalls = 2 :=
  ⟨rfl, rfl, rfl, rfl⟩

/-- C6: the repository's shutdown wrappers (`_shutdown_ld_client` and
app.py's `_close_ld`), whose swallow-all handlers absorb any failure of
the underlying `close()`, are idempotent: a second call changes
nothing. -/
theorem shutdown_idempotent :
    (∀ g : LDGlobal, shutdown_ld_client (shutdown_ld_client g) = shutdown_ld_client g) ∧
    (∀ g : LDGlobal, close_ld (close_ld g) = close_ld g) := by
  constructor
  · intro g
    obtain ⟨oc⟩ := g
    cases oc with
    | none => rfl
    | some c =>
      cases h : c.closed <;>
        simp [shutdown_ld_client, shutdown_body, LDClient.closeE, LDClient.closeOp, h]
  · intro g
    obtain ⟨oc⟩ := g
    cases oc with
    | none => rfl
    | some c =>
      cases h : c.closed <;>
        simp [close_ld, LDClient.closeE, LDClient.closeOp, h]

/-- C7: `GET /status` answers `"ready"` exactly when
`launchdarkly_initialized` is true, `"initializing"` otherwise, always
with HTTP 200. -/
theorem status_ready_iff_initialized (ext : ExtDict) :
    ((status ext).1.status = "ready" ↔
      (status ext).1.launchdarkly_initialized = true) ∧
    ((status ext).1.launchdarkly_initialized = false →
      (status ext).1.status = "initializing") ∧
    (status ext).2 = 200 := by
  cases hext : get_ld_client ext with
  | none => simp [status, hext]
  | some c => cases hc : c.is_initialized <;> simp [status, hext, hc]

/-- Witness for C7: with no client registered, `launchdarkly_initialized`
is false and the reported status is `"initializing"` with HTTP 200. -/
theorem status_ready_iff_initialized_witness :
    (FlaskLD.status extNone).1.status = "initializing" ∧
    (FlaskLD.status extNone).2 = 200 :=
  ⟨(status_ready_iff_initialized extNone).2.1 rfl,
   (status_ready_iff_initialized extNone).2.2⟩

/-- C8: `GET /health` returns the literal text `"ok"` with HTTP 200,
whatever the state of the flag engine. -/
theorem health_always_ok (ext : ExtDict) : health ext = ("ok", 200) := rfl

/-- C9: the gunicorn `post_fork` hook never raises, whatever the outcome of
the underlying `postfork()` call: on any failure the exception is caught
and the worker's state is left intact (it continues serving). -/
theorem post_fork_never_raises :
    (∀ (g : LDGlobal) (impl : LDGlobal → Except LDError LDGlobal),
      ∃ r, post_fork g impl = Except.ok r) ∧
    (∀ (g : LDGlobal) (impl : LDGlobal → Except LDError LDGlobal) (e : LDError),
      impl g = Except.error e → post_fork g impl = Except.ok (g, LogLevel.error)) := by
  constructor
  · intro g impl
    cases h : impl g with
    | ok g2 => exact ⟨(g2, .info), by simp [post_fork, h]⟩
    | error e => exact ⟨(g, .error), by simp [post_fork, h]⟩
  · intro g impl e h
    simp [post_fork, h]

/-- Witness for C9: a `postfork()` that fails leaves the state unchanged
and the hook returns normally. -/
theorem post_fork_never_raises_witness :
    post_fork gSample (fun _ => Except.error LDError.networkUnavailable) =
      Except.ok (gSample, LogLevel.error) :=
  post_fork_never_raises.2 gSample
    (fun _ => Except.error LDError.networkUnavailable)
    LDError.networkUnavailable rfl

/-- C10: `Config.validate` is a staticmethod reading the base class's
environment-derived `LAUNCHDARKLY_SDK_KEY`, so for every selectable
configuration name — including `"testing"`, whose class overrides the
key with `"test-sdk-key"` — `create_app` aborts with the configuration
error whenever the environment variable is unset. -/
theorem create_app_validates_base_config (env : Env) (name : String)
    (mkCfg : Env → ConfigClass)
    (hname : configDict name = some mkCfg)
    (hmissing : env "LAUNCHDARKLY_SDK_KEY" = none) :
    create_app env name = .error (.configurationError cfgKeyErrMsg) ∧
    (TestingConfig env).LAUNCHDARKLY_SDK_KEY = "test-sdk-key" := by
  constructor
  · simp [create_app, hname, Config.validate, ConfigBase, getenvD, hmissing]
  · rfl

/-- Witness for C10: with no environment at all, `create_app` on the
`"testing"` configuration still aborts, although `TestingConfig` carries
a non-empty key. -/
theorem create_app_validates_base_config_witness :
    create_app (fun _ => none) "testing" =
      .error (.configurationError cfgKeyErrMsg) ∧
    (TestingConfig (fun _ => none)).LAUNCHDARKLY_SDK_KEY = "test-sdk-key" :=
  create_app_validates_base_config (fun _ => none) "testing" TestingConfig
    (by simp [configDict]) rfl

end FlaskLD
